import Mathlib

/-!
# Verification of the volumetric-instrument uncertainty pipeline

Shallow embedding of the statistical core of the three analysis scripts
(`volume_uncertainty_analysis_v11.py`, `instrument_uncertainty_kde_analysis_v2.py`,
`instrument_relative_error_overlay_v5.py`).  Raw weights, densities and target
volumes are embedded as rationals; quantities that the scripts obtain through
square roots or library density functions live in `ℝ`.  The scipy kernels the
scripts call (`ttest_1samp`, `t.pdf`, `gaussian_kde`, `trim_mean`, `argmax`,
`linspace`) are modelled from their documented behaviour, with the purely
transcendental parts (the Student-t CDF, the standard Student-t density, the
fitted KDE evaluator) kept as explicit function parameters.
-/

namespace VolumeUncertainty

/-- Modelled from numpy: `np.mean` of a sequence.  Division by zero on the
empty list follows Lean's `0`-convention (the scripts never take the mean of
an empty list on the paths verified below). -/
def npMean (l : List ℚ) : ℚ := l.sum / l.length

/-- Modelled from numpy: the square of `np.std(l, ddof=1)`, i.e. the sample
variance with Bessel's correction `Σ (x - mean)² / (N - 1)`. -/
def sampleVar (l : List ℚ) : ℚ :=
  ((l.map (fun x => (x - npMean l) ^ 2)).sum) / ((l.length : ℚ) - 1)

/-- Modelled from numpy: `np.std(l, ddof=1)`, the sample standard deviation. -/
noncomputable def sampleStd (l : List ℚ) : ℝ := Real.sqrt ((sampleVar l : ℚ) : ℝ)

/-- Modelled from scipy: `stats.ttest_1samp(data, popmean, alternative='two-sided')`.
`cdf df x` stands for the Student-t cumulative distribution function with `df`
degrees of freedom.  scipy computes `t = (mean - popmean)/(s/√N)` and the
two-sided `p = 2·(1 - cdf(|t|, N-1))`.  When the sample standard deviation is
zero the floating-point code produces a non-finite sentinel (NaN or ±inf, never
an exception); that degenerate outcome is modelled as `none`. -/
noncomputable def ttest_1samp (cdf : ℕ → ℝ → ℝ) (data : List ℚ) (popmean : ℚ) :
    Option ℝ × Option ℝ :=
  if sampleVar data = 0 then (none, none)
  else
    let n := data.length
    let t : ℝ := (((npMean data : ℚ) : ℝ) - ((popmean : ℚ) : ℝ)) /
      (sampleStd data / Real.sqrt (n : ℝ))
    (some t, some (2 * (1 - cdf (n - 1) |t|)))

/-- Error type of the spec's input-validation taxonomy (§7 InvalidInputError). -/
inductive InvalidInputError where
  | invalid : InvalidInputError
deriving DecidableEq

namespace V11

/-- Result record of `analyze_and_plot` in `volume_uncertainty_analysis_v11.py`:
every statistic and derived plot quantity the function computes. -/
structure StatSummary where
  volumes : List ℚ
  n : ℕ
  df : ℕ
  t_statistic : Option ℝ
  p_value : Option ℝ
  mu : ℚ
  sigma : ℝ
  relative_error : ℚ
  x_min : ℝ
  x_max : ℝ

/-- Embedding of `analyze_and_plot` from `volume_uncertainty_analysis_v11.py`
(statistical core; drawing and file output are external concerns).  The Python
function performs no input validation and never raises on its own: the `Except`
result type makes that observable against the spec's fail-fast requirement. -/
noncomputable def analyze_and_plot (cdf : ℕ → ℝ → ℝ) (target_volume density : ℚ)
    (raw_weights : List ℚ) : Except InvalidInputError StatSummary :=
  let calculated_volumes := raw_weights.map (fun w => w / density)
  let tp := ttest_1samp cdf calculated_volumes target_volume
  let n := calculated_volumes.length
  let mu := npMean calculated_volumes
  let sigma := sampleStd calculated_volumes
  .ok { volumes := calculated_volumes
        n := n
        df := n - 1
        t_statistic := tp.1
        p_value := tp.2
        mu := mu
        sigma := sigma
        relative_error := (mu - target_volume) / target_volume * 100
        x_min := ((mu : ℚ) : ℝ) - 4 * sigma
        x_max := ((mu : ℚ) : ℝ) + 4 * sigma }

end V11

/-- Modelled from scipy: `stats.t.pdf(x, df, loc, scale)` is the location-scale
transform `f df ((x - loc)/scale) / scale` of the standard Student-t density
`f df`; the transcendental standard density is kept as the parameter `f`. -/
noncomputable def t_pdf (f : ℕ → ℝ → ℝ) (df : ℕ) (loc scale x : ℝ) : ℝ :=
  f df ((x - loc) / scale) / scale

/-- Modelled from numpy: `np.linspace(a, b, n)`, `n` evenly spaced points with
step `(b - a)/(n - 1)` starting at `a`. -/
noncomputable def np_linspace (a b : ℝ) (n : ℕ) : List ℝ :=
  (List.range n).map (fun (i : ℕ) => a + (b - a) * (i : ℝ) / ((n : ℝ) - 1))

/-- Helper for `np_argmax`: scans the tail keeping the current maximum and the
index of its first occurrence. -/
def np_argmax_go {α : Type} [LinearOrder α] : List α → α → ℕ → ℕ → ℕ
  | [], _, _, best => best
  | x :: xs, cur, i, best =>
      if cur < x then np_argmax_go xs x (i + 1) i
      else np_argmax_go xs cur (i + 1) best

/-- Modelled from numpy: `np.argmax`, the index of the first occurrence of the
maximum value (0 on the empty list, where numpy raises instead; the scripts
only apply it to the non-empty 1000-point curves). -/
def np_argmax {α : Type} [LinearOrder α] : List α → ℕ
  | [] => 0
  | x :: xs => np_argmax_go xs x 1 0

/-- Modelled from scipy: `stats.gaussian_kde(dataset)` raises
(`LinAlgError`/`ValueError`) precisely when the dataset has fewer than two
distinct values — the sample covariance is then singular and the estimator
collapses — and otherwise returns a fitted estimator object, represented here
by the dataset it retains; its numeric evaluation stays an external parameter. -/
def gaussian_kde (dataset : List ℚ) : Except Unit (List ℚ) :=
  if 2 ≤ dataset.dedup.length then .ok dataset else .error ()

/-- Modelled from scipy: `stats.trim_mean(a, p)` computes
`lowercut = int(p*n)`, `uppercut = n - lowercut`, raises `ValueError` when
`lowercut > uppercut`, and otherwise averages the slice
`sorted(a)[lowercut:uppercut]`. -/
def trim_mean (a : List ℚ) (p : ℚ) : Except Unit ℚ :=
  let n := a.length
  let lowercut := (⌊p * (n : ℚ)⌋).toNat
  let uppercut := n - lowercut
  if uppercut < lowercut then .error ()
  else .ok (npMean (((a.mergeSort (fun x y => x ≤ y)).drop lowercut).take
    (uppercut - lowercut)))

namespace KdeV2

/-- Result record of `analyze_and_plot` in
`instrument_uncertainty_kde_analysis_v2.py`: the statistics plus the evaluated
curves and annotation points of the figure. -/
structure StatSummary where
  volumes : List ℚ
  n : ℕ
  df : ℕ
  t_statistic : Option ℝ
  p_value : Option ℝ
  mu : ℚ
  sigma : ℝ
  trimmed_mean : Option ℚ
  relative_error : ℚ
  x_min : ℝ
  x_max : ℝ
  x_curve : List ℝ
  y_curve_t : List ℝ
  kde_curve : Option (List ℝ)
  kde_peak_x : Option ℝ

/-- Embedding of `analyze_and_plot` from
`instrument_uncertainty_kde_analysis_v2.py` (statistical core).  `f` is the
standard Student-t density, `cdf` the Student-t CDF and `kdeEval` the numeric
evaluator of a fitted `gaussian_kde` object.  The trimmed-mean `try/except`
becomes `Except.toOption`, and so does the KDE `try/except`, so a KDE failure
leaves the curve and peak absent without escaping the function. -/
noncomputable def analyze_and_plot (f cdf : ℕ → ℝ → ℝ) (kdeEval : List ℚ → ℝ → ℝ)
    (target_volume density : ℚ) (raw_weights : List ℚ) :
    Except InvalidInputError StatSummary :=
  let calculated_volumes := raw_weights.map (fun w => w / density)
  let tp := ttest_1samp cdf calculated_volumes target_volume
  let n := calculated_volumes.length
  let df := n - 1
  let mu := npMean calculated_volumes
  let sigma := sampleStd calculated_volumes
  let trimmed := (trim_mean calculated_volumes (1 / 6)).toOption
  let x_min := ((mu : ℚ) : ℝ) - 4 * sigma
  let x_max := ((mu : ℚ) : ℝ) + 4 * sigma
  let x_curve := np_linspace x_min x_max 1000
  let y_curve_t := x_curve.map (t_pdf f df ((mu : ℚ) : ℝ) sigma)
  let kde := gaussian_kde calculated_volumes
  let kde_curve : Option (List ℝ) :=
    kde.toOption.map (fun d => x_curve.map (kdeEval d))
  let kde_peak_x : Option ℝ :=
    kde.toOption.map (fun d => x_curve.getD (np_argmax (x_curve.map (kdeEval d))) 0)
  .ok { volumes := calculated_volumes
        n := n
        df := df
        t_statistic := tp.1
        p_value := tp.2
        mu := mu
        sigma := sigma
        trimmed_mean := trimmed
        relative_error := (mu - target_volume) / target_volume * 100
        x_min := x_min
        x_max := x_max
        x_curve := x_curve
        y_curve_t := y_curve_t
        kde_curve := kde_curve
        kde_peak_x := kde_peak_x }

end KdeV2

namespace Overlay

/-- Input record of one instrument in
`instrument_relative_error_overlay_v5.py` (the name only affects labels and
file names, which are external concerns). -/
structure Instrument where
  target : ℚ
  density : ℚ
  weights : List ℚ

/-- Embedding of the relative-error series computed per instrument in
`generate_overlay_plots`: `abs_volumes = weights/density`,
`rel_volumes = abs_volumes/target*100`, `rel_errors = rel_volumes - 100`. -/
def rel_errors (i : Instrument) : List ℚ :=
  let abs_volumes := i.weights.map (fun w => w / i.density)
  let rel_volumes := abs_volumes.map (fun v => v / i.target * 100)
  rel_volumes.map (fun r => r - 100)

/-- Mean relative error `mu_err` of one instrument. -/
def mu_err (i : Instrument) : ℚ := npMean (rel_errors i)

/-- Sample standard deviation `sigma_err` of one instrument's relative errors. -/
noncomputable def sigma_err (i : Instrument) : ℝ := sampleStd (rel_errors i)

/-- Degrees of freedom of one instrument in the overlay. -/
def inst_df (i : Instrument) : ℕ := (rel_errors i).length - 1

/-- The list `all_relative_errors`, extended instrument by instrument. -/
def all_relative_errors (g : List Instrument) : List ℚ := (g.map rel_errors).flatten

/-- Modelled from numpy: `np.min` over a non-empty sequence (0 on the empty
list, where numpy raises; the overlay only reaches it with data present). -/
def npMin (l : List ℚ) : ℚ :=
  match l with
  | [] => 0
  | x :: xs => xs.foldl min x

/-- Modelled from numpy: `np.max`, as for `npMin`. -/
def npMax (l : List ℚ) : ℚ :=
  match l with
  | [] => 0
  | x :: xs => xs.foldl max x

/-- The `max_sigma` of the group: `max(sigma_err)` over the instruments, or the
code's fallback `1` for an empty group. -/
noncomputable def max_sigma (g : List Instrument) : ℝ :=
  match g.map sigma_err with
  | [] => 1
  | x :: xs => xs.foldl max x

/-- Group-mode lower domain bound:
`np.floor((min(all errors) - 4*max_sigma) * 10) / 10`. -/
noncomputable def x_min_group (g : List Instrument) : ℝ :=
  (⌊(((npMin (all_relative_errors g) : ℚ) : ℝ) - 4 * max_sigma g) * 10⌋ : ℤ) / 10

/-- Group-mode upper domain bound:
`np.ceil((max(all errors) + 4*max_sigma) * 10) / 10`. -/
noncomputable def x_max_group (g : List Instrument) : ℝ :=
  (⌈(((npMax (all_relative_errors g) : ℚ) : ℝ) + 4 * max_sigma g) * 10⌉ : ℤ) / 10

/-- Peak annotation of one instrument's t-curve in figure A: the marker and
text are placed at `(mu_err, t.pdf(mu_err, df, loc=mu_err, scale=sigma_err))`. -/
noncomputable def t_peak_point (f : ℕ → ℝ → ℝ) (i : Instrument) : ℝ × ℝ :=
  (((mu_err i : ℚ) : ℝ),
    t_pdf f (inst_df i) ((mu_err i : ℚ) : ℝ) (sigma_err i) ((mu_err i : ℚ) : ℝ))

/-- One instrument's KDE overlay outcome in figure B, given the shared curve
grid `xc`: the plotted curve and its annotated peak, or `none` when
`gaussian_kde` fails and the `except` branch only draws an empty legend entry. -/
noncomputable def kde_overlay (kdeEval : List ℚ → ℝ → ℝ) (xc : List ℝ)
    (i : Instrument) : Option (List ℝ × ℝ) :=
  (gaussian_kde (rel_errors i)).toOption.map (fun d =>
    (xc.map (kdeEval d), xc.getD (np_argmax (xc.map (kdeEval d))) 0))

/-- Figure B computes each instrument's KDE overlay independently inside the
per-instrument loop. -/
noncomputable def kde_overlay_results (kdeEval : List ℚ → ℝ → ℝ) (xc : List ℝ)
    (g : List Instrument) : List (Option (List ℝ × ℝ)) :=
  g.map (kde_overlay kdeEval xc)

end Overlay

/-! ## Helper lemmas about the embedded numerics -/

lemma length_cast_ne_zero {l : List ℚ} (hne : l ≠ []) : ((l.length : ℚ)) ≠ 0 := by
  have : l.length ≠ 0 := fun h0 => hne (List.length_eq_zero.mp h0)
  exact_mod_cast this

lemma npMean_const (l : List ℚ) (c : ℚ) (hne : l ≠ []) (h : ∀ x ∈ l, x = c) :
    npMean l = c := by
  have hsum : l.sum = l.length • c := List.sum_eq_card_nsmul l c h
  rw [npMean, hsum, nsmul_eq_mul, mul_comm, mul_div_assoc,
    div_self (length_cast_ne_zero hne), mul_one]

lemma sampleVar_const (l : List ℚ) (c : ℚ) (h : ∀ x ∈ l, x = c) :
    sampleVar l = 0 := by
  rcases l with _ | ⟨x, xs⟩
  · simp [sampleVar]
  · have hm : npMean (x :: xs) = c := npMean_const _ c (by simp) h
    have hz : ((x :: xs).map (fun y => (y - npMean (x :: xs)) ^ 2)).sum = 0 := by
      apply List.sum_eq_zero
      intro y hy
      rcases List.mem_map.mp hy with ⟨z, hz, rfl⟩
      rw [hm, h z hz]
      ring
    rw [sampleVar, hz, zero_div]

lemma sampleVar_nonneg (l : List ℚ) : 0 ≤ sampleVar l := by
  rcases l with _ | ⟨x, xs⟩
  · simp [sampleVar, npMean]
  · rw [sampleVar]
    apply div_nonneg
    · apply List.sum_nonneg
      intro y hy
      rcases List.mem_map.mp hy with ⟨z, _, rfl⟩
      positivity
    · simp

lemma sampleStd_eq_zero_iff (l : List ℚ) : sampleStd l = 0 ↔ sampleVar l = 0 := by
  rw [sampleStd, Real.sqrt_eq_zero (by exact_mod_cast sampleVar_nonneg l)]
  exact_mod_cast Iff.rfl

lemma sampleVar_small (l : List ℚ) (h : l.length < 2) : sampleVar l = 0 := by
  rcases l with _ | ⟨x, xs⟩
  · simp [sampleVar, npMean]
  · rcases xs with _ | ⟨y, ys⟩
    · simp [sampleVar]
    · simp only [List.length_cons] at h
      omega

lemma sum_map_affine (a b : ℚ) (l : List ℚ) :
    (l.map (fun x => a * x + b)).sum = a * l.sum + (l.length : ℚ) * b := by
  induction l with
  | nil => simp
  | cons x xs ih =>
      simp only [List.map_cons, List.sum_cons, ih, List.length_cons]
      push_cast
      ring

lemma npMean_map_affine (a b : ℚ) (l : List ℚ) (hne : l ≠ []) :
    npMean (l.map (fun x => a * x + b)) = a * npMean l + b := by
  rw [npMean, npMean, List.length_map, sum_map_affine]
  have hlen := length_cast_ne_zero hne
  field_simp
  ring

lemma sampleVar_map_affine (a b : ℚ) (l : List ℚ) :
    sampleVar (l.map (fun x => a * x + b)) = a ^ 2 * sampleVar l := by
  rcases eq_or_ne l [] with rfl | hne
  · simp [sampleVar]
  · rw [sampleVar, sampleVar, List.length_map, List.map_map]
    have hnum : ((l.map ((fun y => (y - npMean (l.map (fun x => a * x + b))) ^ 2) ∘
        (fun x => a * x + b))).sum) = a ^ 2 * ((l.map (fun x => (x - npMean l) ^ 2)).sum) := by
      rw [show ((fun y => (y - npMean (l.map (fun x => a * x + b))) ^ 2) ∘
          (fun x => a * x + b)) = fun x => a ^ 2 * ((x - npMean l) ^ 2) by
        funext x
        simp only [Function.comp_apply, npMean_map_affine a b l hne]
        ring]
      exact List.sum_map_mul_left l (fun x => (x - npMean l) ^ 2) (a ^ 2)
    rw [hnum, mul_div_assoc]

lemma sampleStd_map_affine (a b : ℚ) (l : List ℚ) (ha : 0 ≤ a) :
    sampleStd (l.map (fun x => a * x + b)) = (a : ℝ) * sampleStd l := by
  rw [sampleStd, sampleStd, sampleVar_map_affine]
  push_cast
  rw [Real.sqrt_mul (by positivity), Real.sqrt_sq (by exact_mod_cast ha)]

lemma mul_length_le_sum (l : List ℚ) (c : ℚ) (h : ∀ x ∈ l, c ≤ x) :
    (l.length : ℚ) * c ≤ l.sum := by
  induction l with
  | nil => simp
  | cons x xs ih =>
      have hx := h x (by simp)
      have hxs := ih (fun y hy => h y (by simp [hy]))
      simp only [List.length_cons, List.sum_cons]
      push_cast
      linarith

lemma sum_le_mul_length (l : List ℚ) (c : ℚ) (h : ∀ x ∈ l, x ≤ c) :
    l.sum ≤ (l.length : ℚ) * c := by
  induction l with
  | nil => simp
  | cons x xs ih =>
      have hx := h x (by simp)
      have hxs := ih (fun y hy => h y (by simp [hy]))
      simp only [List.length_cons, List.sum_cons]
      push_cast
      linarith

lemma le_npMean (l : List ℚ) (c : ℚ) (hne : l ≠ []) (h : ∀ x ∈ l, c ≤ x) :
    c ≤ npMean l := by
  have hpos : (0 : ℚ) < l.length := by
    have : l.length ≠ 0 := fun h0 => hne (List.length_eq_zero.mp h0)
    exact_mod_cast Nat.pos_of_ne_zero this
  rw [npMean, le_div_iff hpos, mul_comm]
  exact mul_length_le_sum l c h

lemma npMean_le (l : List ℚ) (c : ℚ) (hne : l ≠ []) (h : ∀ x ∈ l, x ≤ c) :
    npMean l ≤ c := by
  have hpos : (0 : ℚ) < l.length := by
    have : l.length ≠ 0 := fun h0 => hne (List.length_eq_zero.mp h0)
    exact_mod_cast Nat.pos_of_ne_zero this
  rw [npMean, div_le_iff hpos, mul_comm]
  exact sum_le_mul_length l c h

lemma foldl_min_le_init {α : Type} [LinearOrder α] (xs : List α) (a : α) :
    xs.foldl min a ≤ a := by
  induction xs generalizing a with
  | nil => exact le_refl a
  | cons x t ih => exact le_trans (ih (min a x)) (min_le_left a x)

lemma foldl_min_le_mem {α : Type} [LinearOrder α] (xs : List α) (a x : α)
    (hx : x ∈ xs) : xs.foldl min a ≤ x := by
  induction xs generalizing a with
  | nil => cases hx
  | cons y t ih =>
      rcases List.mem_cons.mp hx with rfl | hmem
      · exact le_trans (foldl_min_le_init t (min a x)) (min_le_right a x)
      · exact ih (min a y) hmem

lemma le_foldl_max_init {α : Type} [LinearOrder α] (xs : List α) (a : α) :
    a ≤ xs.foldl max a := by
  induction xs generalizing a with
  | nil => exact le_refl a
  | cons x t ih => exact le_trans (le_max_left a x) (ih (max a x))

lemma le_foldl_max_mem {α : Type} [LinearOrder α] (xs : List α) (a x : α)
    (hx : x ∈ xs) : x ≤ xs.foldl max a := by
  induction xs generalizing a with
  | nil => cases hx
  | cons y t ih =>
      rcases List.mem_cons.mp hx with rfl | hmem
      · exact le_trans (le_max_right a x) (le_foldl_max_init t (max a x))
      · exact ih (max a y) hmem

lemma npMin_le_mem (l : List ℚ) (x : ℚ) (hx : x ∈ l) : Overlay.npMin l ≤ x := by
  rcases l with _ | ⟨h, t⟩
  · cases hx
  · rcases List.mem_cons.mp hx with rfl | hmem
    · exact foldl_min_le_init t x
    · exact foldl_min_le_mem t h x hmem

lemma mem_le_npMax (l : List ℚ) (x : ℚ) (hx : x ∈ l) : x ≤ Overlay.npMax l := by
  rcases l with _ | ⟨h, t⟩
  · cases hx
  · rcases List.mem_cons.mp hx with rfl | hmem
    · exact le_foldl_max_init t x
    · exact le_foldl_max_mem t h x hmem

lemma sigma_err_le_max_sigma (g : List Overlay.Instrument) (i : Overlay.Instrument)
    (hi : i ∈ g) : Overlay.sigma_err i ≤ Overlay.max_sigma g := by
  rcases g with _ | ⟨a, as⟩
  · cases hi
  · rw [Overlay.max_sigma]
    simp only [List.map_cons]
    rcases List.mem_cons.mp hi with rfl | hmem
    · exact le_foldl_max_init (as.map Overlay.sigma_err) (Overlay.sigma_err i)
    · exact le_foldl_max_mem (as.map Overlay.sigma_err) (Overlay.sigma_err a)
        (Overlay.sigma_err i) (List.mem_map_of_mem Overlay.sigma_err hmem)

lemma np_argmax_go_lt {α : Type} [LinearOrder α] (xs : List α) (cur : α)
    (i best n : ℕ) (hb : best < n) (hi : i + xs.length ≤ n) :
    np_argmax_go xs cur i best < n := by
  induction xs generalizing cur i best with
  | nil => exact hb
  | cons x t ih =>
      rw [np_argmax_go]
      split
      · exact ih x (i + 1) i (by simp at hi; omega) (by simp at hi; omega)
      · exact ih cur (i + 1) best hb (by simp at hi; omega)

lemma np_argmax_lt {α : Type} [LinearOrder α] (l : List α) (hne : l ≠ []) :
    np_argmax l < l.length := by
  rcases l with _ | ⟨x, xs⟩
  · exact absurd rfl hne
  · rw [np_argmax]
    exact np_argmax_go_lt xs x 1 0 (xs.length + 1) (by omega) (by omega)

lemma getD_mem {α : Type} (l : List α) (n : ℕ) (d : α) (h : n < l.length) :
    l.getD n d ∈ l := by
  rw [List.getD_eq_getElem l d h]
  exact List.getElem_mem h

lemma np_linspace_length (a b : ℝ) (n : ℕ) : (np_linspace a b n).length = n := by
  rw [np_linspace, List.length_map, List.length_range]

/-! ## Claim theorems -/

/-- C4: for every sample of N≥2 weights and every density>0, the computed
volume series satisfies volumes[i] = weights[i]/density elementwise, with the
same length and order as the input sample. -/
theorem c4_volumes_elementwise (cdf : ℕ → ℝ → ℝ) (target density : ℚ)
    (w : List ℚ) (hN : 2 ≤ w.length) (hd : 0 < density) :
    ∃ s, V11.analyze_and_plot cdf target density w = .ok s ∧
      s.volumes.length = w.length ∧
      ∀ i : ℕ, s.volumes[i]? = (w[i]?).map (fun x => x / density) := by
  refine ⟨_, rfl, ?_, ?_⟩
  · exact List.length_map w _
  · intro i
    exact List.getElem?_map (fun x => x / density) w i

/-- C4 witness: concrete two-point sample. -/
theorem c4_volumes_elementwise_witness :
    ∃ s, V11.analyze_and_plot (fun _ _ => 0) 1 2 [(1 : ℚ), 2] = .ok s ∧
      s.volumes.length = [(1 : ℚ), 2].length ∧
      ∀ i : ℕ, s.volumes[i]? = ([(1 : ℚ), 2][i]?).map (fun x => x / 2) :=
  c4_volumes_elementwise (fun _ _ => 0) 1 2 [(1 : ℚ), 2] (by decide) (by decide)

/-- C6: for a constant sample (all weights equal, N≥2) whose mean volume hits
the target exactly, the sample standard deviation is 0 exactly, the relative
error is 0, and the t-statistic is the degenerate non-finite sentinel
(modelled `none`), not a raised exception. -/
theorem c6_degenerate_sentinel (cdf : ℕ → ℝ → ℝ) (c density : ℚ) (w : List ℚ)
    (hd : 0 < density) (hN : 2 ≤ w.length) (hconst : ∀ x ∈ w, x = c) :
    ∃ s, V11.analyze_and_plot cdf (c / density) density w = .ok s ∧
      s.sigma = 0 ∧ s.relative_error = 0 ∧
      s.t_statistic = none ∧ s.p_value = none := by
  have hne : w ≠ [] := by
    intro h
    rw [h] at hN
    simp at hN
  have hvconst : ∀ x ∈ w.map (fun x => x / density), x = c / density := by
    intro x hx
    rcases List.mem_map.mp hx with ⟨y, hy, rfl⟩
    rw [hconst y hy]
  have hvne : w.map (fun x => x / density) ≠ [] := by
    simpa using hne
  have hvar : sampleVar (w.map (fun x => x / density)) = 0 :=
    sampleVar_const _ _ hvconst
  have hmean : npMean (w.map (fun x => x / density)) = c / density :=
    npMean_const _ _ hvne hvconst
  refine ⟨_, rfl, ?_, ?_, ?_, ?_⟩
  · show sampleStd (w.map fun x => x / density) = 0
    rw [sampleStd_eq_zero_iff]
    exact hvar
  · show (npMean (w.map fun x => x / density) - c / density) / (c / density) * 100 = 0
    rw [hmean, sub_self, zero_div, zero_mul]
  · show (ttest_1samp cdf (w.map fun x => x / density) (c / density)).1 = none
    rw [ttest_1samp, if_pos hvar]
  · show (ttest_1samp cdf (w.map fun x => x / density) (c / density)).2 = none
    rw [ttest_1samp, if_pos hvar]

/-- C6 witness: the spec's example, constant sample [1,1,1,1] with density 1
and target 1. -/
theorem c6_degenerate_sentinel_witness :
    ∃ s, V11.analyze_and_plot (fun _ _ => 0) ((1 : ℚ) / 1) 1 [(1 : ℚ), 1, 1, 1] = .ok s ∧
      s.sigma = 0 ∧ s.relative_error = 0 ∧
      s.t_statistic = none ∧ s.p_value = none :=
  c6_degenerate_sentinel (fun _ _ => 0) 1 1 [(1 : ℚ), 1, 1, 1]
    (by decide) (by decide) (by decide)

/-- C2 counterexample: for the one-point sample [1] (N=1 < 2) the per-instrument
computation does not fail with InvalidInputError — it succeeds and produces a
summary, refuting the fail-fast claim. -/
theorem c2_counterexample_no_failure :
    [(1 : ℚ)].length < 2 ∧
      (V11.analyze_and_plot (fun _ _ => 0) 1 1 [(1 : ℚ)]).isOk = true := by
  exact ⟨by decide, rfl⟩

/-- C2 amended: the code performs no input validation at all — for every input
(including N<2 and non-positive target or density) the computation succeeds and
produces a full summary; when N<2 the underlying sample variance degenerates to
the zero-division convention and the t-statistic and p-value are the degenerate
sentinel `none`. -/
theorem c2_no_validation (cdf : ℕ → ℝ → ℝ) (target density : ℚ) (w : List ℚ) :
    (V11.analyze_and_plot cdf target density w).isOk = true ∧
    (w.length < 2 →
      ∃ s, V11.analyze_and_plot cdf target density w = .ok s ∧
        s.t_statistic = none ∧ s.p_value = none) := by
  constructor
  · rfl
  · intro hN
    have hvar : sampleVar (w.map (fun x => x / density)) = 0 := by
      apply sampleVar_small
      rw [List.length_map]
      exact hN
    refine ⟨_, rfl, ?_, ?_⟩
    · show (ttest_1samp cdf (w.map fun x => x / density) target).1 = none
      rw [ttest_1samp, if_pos hvar]
    · show (ttest_1samp cdf (w.map fun x => x / density) target).2 = none
      rw [ttest_1samp, if_pos hvar]

/-- C2 amended witness: the undersized sample [1] with nonsensical
target 0 still yields a summary, with sentinel t and p. -/
theorem c2_no_validation_witness :
    ∃ s, V11.analyze_and_plot (fun _ _ => 0) 0 1 [(1 : ℚ)] = .ok s ∧
      s.t_statistic = none ∧ s.p_value = none :=
  (c2_no_validation (fun _ _ => 0) 0 1 [(1 : ℚ)]).2 (by decide)

/-- C1: for N≥2 weights with positive sample variance, positive density and
positive target, the t-statistic equals (μ − target)/(σ/√N) with μ the mean of
the volumes weights/density, the two-tailed p-value equals
2·(1 − CDF(|t|, N−1)), and when μ = target exactly, t = 0 and p = 1 exactly
(given that the Student-t CDF sends 0 to 1/2). -/
theorem c1_ttest_formula (cdf : ℕ → ℝ → ℝ) (target density : ℚ) (w : List ℚ)
    (hN : 2 ≤ w.length) (ht : 0 < target) (hd : 0 < density)
    (hvar : 0 < sampleVar (w.map (fun x => x / density)))
    (hcdf : cdf (w.length - 1) 0 = 1 / 2) :
    ∃ s, V11.analyze_and_plot cdf target density w = .ok s ∧
      s.mu = npMean (w.map (fun x => x / density)) ∧
      s.t_statistic = some ((((npMean (w.map (fun x => x / density)) : ℚ) : ℝ) -
          ((target : ℚ) : ℝ)) /
        (sampleStd (w.map (fun x => x / density)) / Real.sqrt (w.length : ℝ))) ∧
      s.p_value = some (2 * (1 - cdf (w.length - 1)
        |(((npMean (w.map (fun x => x / density)) : ℚ) : ℝ) - ((target : ℚ) : ℝ)) /
          (sampleStd (w.map (fun x => x / density)) / Real.sqrt (w.length : ℝ))|)) ∧
      (npMean (w.map (fun x => x / density)) = target →
        s.t_statistic = some 0 ∧ s.p_value = some 1) := by
  have hlen : (w.map (fun x => x / density)).length = w.length := List.length_map w _
  have hne : sampleVar (w.map (fun x => x / density)) ≠ 0 := ne_of_gt hvar
  refine ⟨_, rfl, rfl, ?_, ?_, ?_⟩
  · show (ttest_1samp cdf (w.map fun x => x / density) target).1 = _
    rw [ttest_1samp, if_neg hne]
    simp only [hlen]
  · show (ttest_1samp cdf (w.map fun x => x / density) target).2 = _
    rw [ttest_1samp, if_neg hne]
    simp only [hlen]
  · intro hmeq
    have hcast : ((npMean (w.map (fun x => x / density)) : ℚ) : ℝ) =
        ((target : ℚ) : ℝ) := by
      exact_mod_cast congrArg (fun q : ℚ => ((q : ℚ) : ℝ)) hmeq
    constructor
    · show (ttest_1samp cdf (w.map fun x => x / density) target).1 = some 0
      rw [ttest_1samp, if_neg hne]
      simp only [hcast, sub_self, zero_div]
    · show (ttest_1samp cdf (w.map fun x => x / density) target).2 = some 1
      rw [ttest_1samp, if_neg hne]
      simp only [hcast, sub_self, zero_div, abs_zero, hlen, hcdf]
      norm_num

/-- C1 witness: sample [0,2,4] with density 1 and target 2 has mean exactly the
target, variance 4, so t = 0 and p = 1. -/
theorem c1_ttest_formula_witness :
    ∃ s, V11.analyze_and_plot (fun _ _ => (1 / 2 : ℝ)) 2 1 [(0 : ℚ), 2, 4] = .ok s ∧
      s.mu = npMean ([(0 : ℚ), 2, 4].map (fun x => x / 1)) ∧
      s.t_statistic = some ((((npMean ([(0 : ℚ), 2, 4].map (fun x => x / 1)) : ℚ) : ℝ) -
          (((2 : ℚ) : ℚ) : ℝ)) /
        (sampleStd ([(0 : ℚ), 2, 4].map (fun x => x / 1)) /
          Real.sqrt (([(0 : ℚ), 2, 4].length : ℕ) : ℝ))) ∧
      s.p_value = some (2 * (1 - (fun _ _ => (1 / 2 : ℝ)) ([(0 : ℚ), 2, 4].length - 1)
        |(((npMean ([(0 : ℚ), 2, 4].map (fun x => x / 1)) : ℚ) : ℝ) - (((2 : ℚ) : ℚ) : ℝ)) /
          (sampleStd ([(0 : ℚ), 2, 4].map (fun x => x / 1)) /
            Real.sqrt (([(0 : ℚ), 2, 4].length : ℕ) : ℝ))|)) ∧
      (npMean ([(0 : ℚ), 2, 4].map (fun x => x / 1)) = 2 →
        s.t_statistic = some 0 ∧ s.p_value = some 1) :=
  c1_ttest_formula (fun _ _ => (1 / 2 : ℝ)) 2 1 [(0 : ℚ), 2, 4]
    (by decide) (by decide) (by decide)
    (by norm_num [sampleVar, npMean]) (by norm_num)

/-- C7: the two-tailed p-value is invariant under a sign flip of the deviation
of the mean from the target — two weight samples of equal size and equal sample
variance whose volume means deviate from the target by +d and −d get identical
p-values. -/
theorem c7_pvalue_sign_flip (cdf : ℕ → ℝ → ℝ) (target d density : ℚ)
    (w1 w2 : List ℚ) (hlen : w1.length = w2.length)
    (hvar_eq : sampleVar (w1.map (fun x => x / density)) =
      sampleVar (w2.map (fun x => x / density)))
    (hvar_pos : 0 < sampleVar (w1.map (fun x => x / density)))
    (h1 : npMean (w1.map (fun x => x / density)) - target = d)
    (h2 : npMean (w2.map (fun x => x / density)) - target = -d) :
    ∃ s1 s2, V11.analyze_and_plot cdf target density w1 = .ok s1 ∧
      V11.analyze_and_plot cdf target density w2 = .ok s2 ∧
      s1.p_value = s2.p_value := by
  have hvar2 : 0 < sampleVar (w2.map (fun x => x / density)) := hvar_eq ▸ hvar_pos
  have hlen12 : (w2.map (fun x => x / density)).length =
      (w1.map (fun x => x / density)).length := by
    rw [List.length_map, List.length_map, hlen]
  have hstd : sampleStd (w2.map (fun x => x / density)) =
      sampleStd (w1.map (fun x => x / density)) := by
    rw [sampleStd, sampleStd, hvar_eq]
  have hnum : ((npMean (w2.map (fun x => x / density)) : ℚ) : ℝ) - ((target : ℚ) : ℝ) =
      -(((npMean (w1.map (fun x => x / density)) : ℚ) : ℝ) - ((target : ℚ) : ℝ)) := by
    have hq : npMean (w2.map (fun x => x / density)) - target =
        -(npMean (w1.map (fun x => x / density)) - target) := by
      rw [h1, h2]
    exact_mod_cast congrArg (fun q : ℚ => ((q : ℚ) : ℝ)) hq
  refine ⟨_, _, rfl, rfl, ?_⟩
  show (ttest_1samp cdf (w1.map fun x => x / density) target).2 =
    (ttest_1samp cdf (w2.map fun x => x / density) target).2
  rw [ttest_1samp, ttest_1samp, if_neg (ne_of_gt hvar_pos), if_neg (ne_of_gt hvar2)]
  simp only [hlen12, hstd, hnum, neg_div, abs_neg]

/-- C7 witness: samples [0,2,4] and [-2,0,2] with density 1 and target 1
deviate by +1 and −1 with equal variance 4. -/
theorem c7_pvalue_sign_flip_witness :
    ∃ s1 s2, V11.analyze_and_plot (fun _ _ => 0) 1 1 [(0 : ℚ), 2, 4] = .ok s1 ∧
      V11.analyze_and_plot (fun _ _ => 0) 1 1 [(-2 : ℚ), 0, 2] = .ok s2 ∧
      s1.p_value = s2.p_value :=
  c7_pvalue_sign_flip (fun _ _ => 0) 1 1 1 [(0 : ℚ), 2, 4] [(-2 : ℚ), 0, 2]
    (by decide) (by norm_num [sampleVar, npMean]) (by norm_num [sampleVar, npMean])
    (by norm_num [npMean]) (by norm_num [npMean])

/-- C3: in single-instrument mode the plot domain is exactly
[μ − 4σ, μ + 4σ], so x_max − x_min = 8σ; in group mode the domain
floor10(min − 4·max σ) .. ceil10(max + 4·max σ) contains every instrument's
[μ_err − 4σ_err, μ_err + 4σ_err] interval. -/
theorem c3_domain_derivation :
    (∀ (cdf : ℕ → ℝ → ℝ) (target density : ℚ) (w : List ℚ),
      ∃ s, V11.analyze_and_plot cdf target density w = .ok s ∧
        s.x_min = ((s.mu : ℚ) : ℝ) - 4 * s.sigma ∧
        s.x_max = ((s.mu : ℚ) : ℝ) + 4 * s.sigma ∧
        s.x_max - s.x_min = 8 * s.sigma) ∧
    (∀ (g : List Overlay.Instrument) (i : Overlay.Instrument),
      i ∈ g → Overlay.rel_errors i ≠ [] →
      Overlay.x_min_group g ≤ ((Overlay.mu_err i : ℚ) : ℝ) - 4 * Overlay.sigma_err i ∧
      ((Overlay.mu_err i : ℚ) : ℝ) + 4 * Overlay.sigma_err i ≤ Overlay.x_max_group g) := by
  constructor
  · intro cdf target density w
    refine ⟨_, rfl, rfl, rfl, ?_⟩
    show (((npMean (w.map fun x => x / density) : ℚ) : ℝ) +
        4 * sampleStd (w.map fun x => x / density)) -
      (((npMean (w.map fun x => x / density) : ℚ) : ℝ) -
        4 * sampleStd (w.map fun x => x / density)) =
      8 * sampleStd (w.map fun x => x / density)
    ring
  · intro g i hig hne
    have hx_all : ∀ x ∈ Overlay.rel_errors i, x ∈ Overlay.all_relative_errors g := by
      intro x hx
      exact List.mem_flatten.mpr
        ⟨Overlay.rel_errors i, List.mem_map_of_mem Overlay.rel_errors hig, hx⟩
    have h1 : Overlay.npMin (Overlay.all_relative_errors g) ≤ Overlay.mu_err i :=
      le_npMean _ _ hne (fun x hx => npMin_le_mem _ x (hx_all x hx))
    have h2 : Overlay.mu_err i ≤ Overlay.npMax (Overlay.all_relative_errors g) :=
      npMean_le _ _ hne (fun x hx => mem_le_npMax _ x (hx_all x hx))
    have h1R : ((Overlay.npMin (Overlay.all_relative_errors g) : ℚ) : ℝ) ≤
        ((Overlay.mu_err i : ℚ) : ℝ) := by exact_mod_cast h1
    have h2R : ((Overlay.mu_err i : ℚ) : ℝ) ≤
        ((Overlay.npMax (Overlay.all_relative_errors g) : ℚ) : ℝ) := by exact_mod_cast h2
    have h3 : Overlay.sigma_err i ≤ Overlay.max_sigma g :=
      sigma_err_le_max_sigma g i hig
    constructor
    · have hfl : ((⌊(((Overlay.npMin (Overlay.all_relative_errors g) : ℚ) : ℝ) -
          4 * Overlay.max_sigma g) * 10⌋ : ℤ) : ℝ) ≤
          (((Overlay.npMin (Overlay.all_relative_errors g) : ℚ) : ℝ) -
            4 * Overlay.max_sigma g) * 10 := Int.floor_le _
      rw [Overlay.x_min_group]
      linarith
    · have hcl : (((Overlay.npMax (Overlay.all_relative_errors g) : ℚ) : ℝ) +
          4 * Overlay.max_sigma g) * 10 ≤
          ((⌈(((Overlay.npMax (Overlay.all_relative_errors g) : ℚ) : ℝ) +
            4 * Overlay.max_sigma g) * 10⌉ : ℤ) : ℝ) := Int.le_ceil _
      rw [Overlay.x_max_group]
      linarith

/-- C3 witness: a one-instrument group with sample [0,2,4]. -/
theorem c3_domain_derivation_witness :
    Overlay.x_min_group [⟨1, 1, [(0 : ℚ), 2, 4]⟩] ≤
      ((Overlay.mu_err ⟨1, 1, [(0 : ℚ), 2, 4]⟩ : ℚ) : ℝ) -
        4 * Overlay.sigma_err ⟨1, 1, [(0 : ℚ), 2, 4]⟩ ∧
    ((Overlay.mu_err ⟨1, 1, [(0 : ℚ), 2, 4]⟩ : ℚ) : ℝ) +
        4 * Overlay.sigma_err ⟨1, 1, [(0 : ℚ), 2, 4]⟩ ≤
      Overlay.x_max_group [⟨1, 1, [(0 : ℚ), 2, 4]⟩] :=
  c3_domain_derivation.2 [⟨1, 1, [(0 : ℚ), 2, 4]⟩] ⟨1, 1, [(0 : ℚ), 2, 4]⟩
    (List.mem_singleton.mpr rfl) (by simp [Overlay.rel_errors])

set_option maxRecDepth 8000 in
/-- C5: when a sample has fewer than 2 distinct values, KDE construction is
unavailable — the per-instrument computation still succeeds (no exception
escapes), the KDE curve and KDE-peak annotation are both omitted (not an
all-zero curve), the t-distribution curve is still evaluated, and in the
overlay each instrument's KDE outcome is a function of that instrument alone,
so other instruments are unaffected. -/
theorem c5_kde_unavailable (f cdf : ℕ → ℝ → ℝ) (kdeEval : List ℚ → ℝ → ℝ)
    (target density : ℚ) (w : List ℚ)
    (hdist : (w.map (fun x => x / density)).dedup.length < 2) :
    (∃ s, KdeV2.analyze_and_plot f cdf kdeEval target density w = .ok s ∧
      s.kde_curve = none ∧ s.kde_peak_x = none ∧
      s.y_curve_t = s.x_curve.map (t_pdf f s.df ((s.mu : ℚ) : ℝ) s.sigma)) ∧
    (∀ (xc : List ℝ) (g : List Overlay.Instrument) (j : ℕ),
      (Overlay.kde_overlay_results kdeEval xc g)[j]? =
        (g[j]?).map (Overlay.kde_overlay kdeEval xc)) := by
  have hk : gaussian_kde (w.map (fun x => x / density)) = .error () := by
    rw [gaussian_kde, if_neg (by omega)]
  constructor
  · refine ⟨_, rfl, ?_, ?_, rfl⟩
    · show (gaussian_kde (w.map fun x => x / density)).toOption.map _ = none
      rw [hk]
      rfl
    · show (gaussian_kde (w.map fun x => x / density)).toOption.map _ = none
      rw [hk]
      rfl
  · intro xc g j
    exact List.getElem?_map (Overlay.kde_overlay kdeEval xc) g j

/-- C5 witness: the constant sample [5,5]. -/
theorem c5_kde_unavailable_witness :
    (∃ s, KdeV2.analyze_and_plot (fun _ _ => 0) (fun _ _ => 0) (fun _ _ => 0)
        1 1 [(5 : ℚ), 5] = .ok s ∧
      s.kde_curve = none ∧ s.kde_peak_x = none ∧
      s.y_curve_t = s.x_curve.map (t_pdf (fun _ _ => 0) s.df ((s.mu : ℚ) : ℝ) s.sigma)) ∧
    (∀ (xc : List ℝ) (g : List Overlay.Instrument) (j : ℕ),
      (Overlay.kde_overlay_results (fun _ _ => 0) xc g)[j]? =
        (g[j]?).map (Overlay.kde_overlay (fun _ _ => 0) xc)) :=
  c5_kde_unavailable (fun _ _ => 0) (fun _ _ => 0) (fun _ _ => 0) 1 1 [(5 : ℚ), 5]
    (by norm_num [List.dedup])

lemma getD_argmax_map_mem (g : ℝ → ℝ) (xc : List ℝ) (hne : xc ≠ []) :
    xc.getD (np_argmax (xc.map g)) 0 ∈ xc := by
  apply getD_mem
  have h2 : xc.map g ≠ [] := by
    intro h
    exact hne (List.map_eq_nil.mp h)
  calc np_argmax (xc.map g) < (xc.map g).length := np_argmax_lt _ h2
    _ = xc.length := List.length_map xc g

lemma toOption_map_getD_ok {ε : Type} (e : Except ε (List ℚ)) (v : List ℚ)
    (h : e = .ok v) (kdeEval : List ℚ → ℝ → ℝ) (xc : List ℝ) (hne : xc ≠ []) :
    ∃ x, e.toOption.map (fun d => xc.getD (np_argmax (xc.map (kdeEval d))) 0) = some x ∧
      x ∈ xc := by
  refine ⟨xc.getD (np_argmax (xc.map (kdeEval v))) 0, ?_, getD_argmax_map_mem (kdeEval v) xc hne⟩
  rw [h]
  rfl

set_option maxRecDepth 8000 in
/-- C8: the annotated peak of the parametric t-curve sits exactly at x = μ with
height the density at μ (the mode of the location-scale t family, given a
standard density maximal at 0), while a KDE peak is the arg-max over the 1000
evenly spaced evaluation points and is therefore one of those grid points. -/
theorem c8_peak_locations (f cdf : ℕ → ℝ → ℝ) (kdeEval : List ℚ → ℝ → ℝ) :
    (∀ (df : ℕ) (loc scale : ℝ), 0 < scale → (∀ z, f df z ≤ f df 0) →
      ∀ x, t_pdf f df loc scale x ≤ t_pdf f df loc scale loc) ∧
    (∀ i : Overlay.Instrument, Overlay.t_peak_point f i =
      (((Overlay.mu_err i : ℚ) : ℝ),
        t_pdf f (Overlay.inst_df i) ((Overlay.mu_err i : ℚ) : ℝ) (Overlay.sigma_err i)
          ((Overlay.mu_err i : ℚ) : ℝ))) ∧
    (∀ (target density : ℚ) (w : List ℚ),
      2 ≤ (w.map (fun x => x / density)).dedup.length →
      ∃ s, KdeV2.analyze_and_plot f cdf kdeEval target density w = .ok s ∧
        s.x_curve.length = 1000 ∧
        ∃ x, s.kde_peak_x = some x ∧ x ∈ s.x_curve) := by
  refine ⟨?_, ?_, ?_⟩
  · intro df loc scale hscale hf x
    rw [t_pdf, t_pdf, sub_self, zero_div]
    exact div_le_div_of_nonneg_right (hf _) hscale.le
  · intro i
    rfl
  · intro target density w hdist
    have hk : gaussian_kde (w.map (fun x => x / density)) = .ok (w.map (fun x => x / density)) := by
      rw [gaussian_kde, if_pos hdist]
    refine ⟨_, rfl, np_linspace_length _ _ _, ?_⟩
    apply toOption_map_getD_ok _ _ hk
    intro h
    have hcl := congrArg List.length h
    rw [np_linspace_length] at hcl
    simp at hcl

/-- C8 witness: a standard density bounded by its value at 0 has its
location-scale peak at the location, and the sample [1,2] yields a KDE peak
lying on the 1000-point grid. -/
theorem c8_peak_locations_witness :
    (∀ x, t_pdf (fun _ _ => 1) 5 3 1 x ≤ t_pdf (fun _ _ => 1) 5 3 1 3) ∧
    (∃ s, KdeV2.analyze_and_plot (fun _ _ => 1) (fun _ _ => 0) (fun _ _ => 0)
        1 1 [(1 : ℚ), 2] = .ok s ∧
      s.x_curve.length = 1000 ∧
      ∃ x, s.kde_peak_x = some x ∧ x ∈ s.x_curve) :=
  ⟨(c8_peak_locations (fun _ _ => 1) (fun _ _ => 0) (fun _ _ => 0)).1 5 3 1
      (by norm_num) (fun z => le_refl 1),
    (c8_peak_locations (fun _ _ => 1) (fun _ _ => 0) (fun _ _ => 0)).2.2 1 1
      [(1 : ℚ), 2] (by norm_num [List.dedup])⟩

lemma trim_mean_sixth_ok (l : List ℚ) :
    ∃ v, trim_mean l (1 / 6) = .ok v ∧
      v = npMean (((l.mergeSort (fun x y => x ≤ y)).drop
        ((⌊(1 / 6 : ℚ) * (l.length : ℚ)⌋).toNat)).take
        (l.length - (⌊(1 / 6 : ℚ) * (l.length : ℚ)⌋).toNat -
          (⌊(1 / 6 : ℚ) * (l.length : ℚ)⌋).toNat)) := by
  have hq : (0 : ℚ) ≤ (1 / 6 : ℚ) * (l.length : ℚ) := by positivity
  have hfl0 : (0 : ℤ) ≤ ⌊(1 / 6 : ℚ) * (l.length : ℚ)⌋ := Int.floor_nonneg.mpr hq
  have hz : (((⌊(1 / 6 : ℚ) * (l.length : ℚ)⌋).toNat : ℕ) : ℤ) =
      ⌊(1 / 6 : ℚ) * (l.length : ℚ)⌋ := Int.toNat_of_nonneg hfl0
  have h2lc : 2 * (⌊(1 / 6 : ℚ) * (l.length : ℚ)⌋).toNat ≤ l.length := by
    have h1 : (((⌊(1 / 6 : ℚ) * (l.length : ℚ)⌋).toNat : ℕ) : ℚ) ≤
        (1 / 6 : ℚ) * (l.length : ℚ) := by
      calc (((⌊(1 / 6 : ℚ) * (l.length : ℚ)⌋).toNat : ℕ) : ℚ) =
          ((⌊(1 / 6 : ℚ) * (l.length : ℚ)⌋ : ℤ) : ℚ) := by
            exact_mod_cast congrArg (fun z : ℤ => (z : ℚ)) hz
        _ ≤ (1 / 6 : ℚ) * (l.length : ℚ) := Int.floor_le _
    have h0 : (0 : ℚ) ≤ (l.length : ℚ) := by positivity
    have h2 : (2 : ℚ) * (((⌊(1 / 6 : ℚ) * (l.length : ℚ)⌋).toNat : ℕ) : ℚ) ≤
        (l.length : ℚ) := by linarith
    exact_mod_cast h2
  refine ⟨_, ?_, rfl⟩
  rw [trim_mean, if_neg (by omega)]

/-- C9: the trimmed mean is the mean of the sorted volumes with ⌊N/6⌋ values
dropped from each tail; the per-instrument summary always records the scipy
result through an Option (so a trim failure would surface as `none`, not an
exception), at the 1/6 trim it always succeeds, and the rest of the summary is
produced regardless. -/
theorem c9_trimmed_mean (f cdf : ℕ → ℝ → ℝ) (kdeEval : List ℚ → ℝ → ℝ)
    (target density : ℚ) (w : List ℚ) :
    ∃ s, KdeV2.analyze_and_plot f cdf kdeEval target density w = .ok s ∧
      s.trimmed_mean = (trim_mean (w.map (fun x => x / density)) (1 / 6)).toOption ∧
      s.mu = npMean (w.map (fun x => x / density)) ∧
      (∃ v, trim_mean (w.map (fun x => x / density)) (1 / 6) = .ok v ∧
        s.trimmed_mean = some v ∧
        v = npMean ((((w.map (fun x => x / density)).mergeSort (fun x y => x ≤ y)).drop
          ((⌊(1 / 6 : ℚ) * ((w.map (fun x => x / density)).length : ℚ)⌋).toNat)).take
          ((w.map (fun x => x / density)).length -
            (⌊(1 / 6 : ℚ) * ((w.map (fun x => x / density)).length : ℚ)⌋).toNat -
            (⌊(1 / 6 : ℚ) * ((w.map (fun x => x / density)).length : ℚ)⌋).toNat))) := by
  obtain ⟨v, hv, hveq⟩ := trim_mean_sixth_ok (w.map (fun x => x / density))
  refine ⟨_, rfl, rfl, rfl, v, hv, ?_, hveq⟩
  show (trim_mean (w.map fun x => x / density) (1 / 6)).toOption = some v
  rw [hv]
  rfl

/-- C10: the relative-error overlay is a homomorphic image of the absolute
pipeline — the mean of the relative-error series equals the single-instrument
relative_error_pct, and its sample standard deviation is (σ/target)·100. -/
theorem c10_relative_error_homomorphism (cdf : ℕ → ℝ → ℝ) (i : Overlay.Instrument)
    (hN : 2 ≤ i.weights.length) (hd : 0 < i.density) (ht : 0 < i.target) :
    ∃ s, V11.analyze_and_plot cdf i.target i.density i.weights = .ok s ∧
      Overlay.mu_err i = s.relative_error ∧
      Overlay.sigma_err i = s.sigma / ((i.target : ℚ) : ℝ) * 100 := by
  have hne : i.weights ≠ [] := by
    intro h
    rw [h] at hN
    simp at hN
  have hvne : i.weights.map (fun x => x / i.density) ≠ [] := by simpa using hne
  have htne : i.target ≠ 0 := ne_of_gt ht
  have hrel : Overlay.rel_errors i = (i.weights.map (fun x => x / i.density)).map
      (fun v => (100 / i.target) * v + (-100)) := by
    rw [Overlay.rel_errors]
    rw [List.map_map]
    apply List.map_congr_left
    intro v _
    show v / i.target * 100 - 100 = (100 / i.target) * v + (-100)
    ring
  have hmu : Overlay.mu_err i =
      (100 / i.target) * npMean (i.weights.map (fun x => x / i.density)) + (-100) := by
    rw [Overlay.mu_err, hrel]
    exact npMean_map_affine _ _ _ hvne
  have hsg : Overlay.sigma_err i = (((100 / i.target : ℚ)) : ℝ) *
      sampleStd (i.weights.map (fun x => x / i.density)) := by
    rw [Overlay.sigma_err, hrel]
    exact sampleStd_map_affine _ _ _ (by positivity)
  refine ⟨_, rfl, ?_, ?_⟩
  · show Overlay.mu_err i =
      (npMean (i.weights.map fun x => x / i.density) - i.target) / i.target * 100
    rw [hmu]
    field_simp
    ring
  · show Overlay.sigma_err i =
      sampleStd (i.weights.map fun x => x / i.density) / ((i.target : ℚ) : ℝ) * 100
    rw [hsg]
    push_cast
    ring

/-- C10 witness: the instrument with target 2, density 1 and sample [0,2,4]. -/
theorem c10_relative_error_homomorphism_witness :
    ∃ s, V11.analyze_and_plot (fun _ _ => 0) (Overlay.Instrument.mk 2 1 [(0 : ℚ), 2, 4]).target
        (Overlay.Instrument.mk 2 1 [(0 : ℚ), 2, 4]).density
        (Overlay.Instrument.mk 2 1 [(0 : ℚ), 2, 4]).weights = .ok s ∧
      Overlay.mu_err (Overlay.Instrument.mk 2 1 [(0 : ℚ), 2, 4]) = s.relative_error ∧
      Overlay.sigma_err (Overlay.Instrument.mk 2 1 [(0 : ℚ), 2, 4]) =
        s.sigma / (((Overlay.Instrument.mk 2 1 [(0 : ℚ), 2, 4]).target : ℚ) : ℝ) * 100 :=
  c10_relative_error_homomorphism (fun _ _ => 0) (Overlay.Instrument.mk 2 1 [(0 : ℚ), 2, 4])
    (by decide) (by decide) (by decide)

end VolumeUncertainty
